import Mathlib

/-!
Verification development for the genesis-pepper-brain runtime
(event-bridge and dialogue-orchestration pipeline).

The Python modules under `src/` are shallowly embedded as executable Lean
definitions.  Async methods are embedded as explicit state-passing
functions; a Python method that can raise is embedded with result type
`Except PyErr _`; a method whose body catches every exception is embedded
with a plain (total) result type.  Hardware side effects (speech, motion)
are collected as explicit command lists.
-/

namespace Genesis

/-- A Python exception crossing a call boundary, identified by its kind. -/
structure PyErr where
  kind : String
deriving DecidableEq

/-- A (restricted) model of the Python values carried by sensor events:
strings, integers, nested lists and None. -/
inductive PyValue where
  | str (s : String)
  | int (n : Int)
  | list (xs : List PyValue)
  | pyNone

mutual

/-- Python `==` on the modelled values (structural equality). -/
def pyValueBeq : PyValue → PyValue → Bool
  | .str a, .str b => a == b
  | .int a, .int b => a == b
  | .list xs, .list ys => pyValueListBeq xs ys
  | .pyNone, .pyNone => true
  | _, _ => false

/-- Elementwise Python `==` on lists of modelled values. -/
def pyValueListBeq : List PyValue → List PyValue → Bool
  | [], [] => true
  | x :: xs, y :: ys => pyValueBeq x y && pyValueListBeq xs ys
  | _, _ => false

end

mutual

/-- Python `repr` on the modelled values (used by `str` on lists). -/
def pyRepr : PyValue → String
  | .str s => "\x27" ++ s ++ "\x27"
  | .int n => toString n
  | .list xs => "[" ++ pyReprItems xs ++ "]"
  | .pyNone => "None"

/-- Comma-separated `repr` of the items of a Python list. -/
def pyReprItems : List PyValue → String
  | [] => ""
  | [v] => pyRepr v
  | v :: vs => pyRepr v ++ ", " ++ pyReprItems vs

end

/-- Python `str()` on the modelled values. -/
def pyStr : PyValue → String
  | .str s => s
  | v => pyRepr v

/-- Python truthiness of the modelled values. -/
def pyTruthy : PyValue → Bool
  | .str s => !s.isEmpty
  | .int n => n != 0
  | .list xs => !xs.isEmpty
  | .pyNone => false

/-- Python whitespace for `str.strip()` (the ASCII whitespace characters;
the rarer Unicode whitespace code points are not modelled). -/
def py_isspace (c : Char) : Bool :=
  c = ' ' || c = '\t' || c = '\n' || c = '\x0d' || c = '\x0b' || c = '\x0c'

/-- Python `s.strip()` (kernel-computable, over the character list). -/
def py_strip (s : String) : String :=
  ⟨((s.data.dropWhile py_isspace).reverse.dropWhile py_isspace).reverse⟩

/-- ASCII lower-casing of one character (Python `str.lower` restricted to
the ASCII identifiers used as persona keys). -/
def py_char_lower (c : Char) : Char :=
  if 'A' ≤ c && c ≤ 'Z' then Char.ofNat (c.toNat + 32) else c

/-- Python `s.lower()` (kernel-computable). -/
def py_lower (s : String) : String :=
  ⟨s.data.map py_char_lower⟩

/-- Python `s.startswith(pat)` (kernel-computable). -/
def py_startswith (s pat : String) : Bool :=
  pat.data.isPrefixOf s.data

/-- Substring occurrence over character lists. -/
def char_list_infix (pat : List Char) : List Char → Bool
  | [] => pat.isEmpty
  | c :: rest => pat.isPrefixOf (c :: rest) || char_list_infix pat rest

/-- Python `pat in s` substring test (kernel-computable). -/
def str_contains (s pat : String) : Bool :=
  char_list_infix pat.data s.data

/-- Python `s.split(sep)` for a one-character separator
(kernel-computable; empty pieces are kept, as in Python). -/
def py_split (s : String) (sep : Char) : List String :=
  (s.data.splitOn sep).map (fun l => String.mk l)

/- ## External Reasoning Gateway (modules/external_ai.py) -/

/-- The fixed disconnected sentinel of `ExternalAI.get_general_response`
(external_ai.py line 53). -/
def disconnected_sentinel : String :=
  "I am currently disconnected from the external AI services."

/-- The fixed empty-or-filtered sentinel (external_ai.py line 76). -/
def empty_filtered_sentinel : String :=
  "The external AI response was empty or filtered."

/-- The fixed technical-difficulties sentinel (external_ai.py line 80). -/
def tech_difficulties_sentinel : String :=
  "I am experiencing technical difficulties reaching the external AI brain."

/-- Behaviour of one `gemini_client.generate_content` call, as observed by
`_generate_sync` (external_ai.py lines 60-68): a response object with a
`text` attribute, a falsy/text-less response, or a raised exception. -/
inductive GenOutcome where
  | text (s : String)
  | noText
  | raises
deriving DecidableEq

/-- Environment of one `ExternalAI.get_general_response` call: whether the
module-level `gemini_client` was initialized, whether anything in the outer
`try` body other than the worker function raises (e.g. an executor
failure), and what the model call itself does. -/
structure AIEnv where
  client_ok : Bool
  outer_raises : Bool
  gen : GenOutcome
deriving DecidableEq

/-- `_generate_sync` (external_ai.py lines 60-68): returns the stripped
response text, or `None` when the response is falsy/text-less or when the
model call raises (the inner `except` returns `None`). -/
def generate_sync (env : AIEnv) : Option String :=
  match env.gen with
  | .text s => some (py_strip s)
  | .noText => none
  | .raises => none

/-- The body of the outer `try` of `get_general_response`: runs the worker
on the executor; an outer failure propagates as an exception. -/
def attempt_generate (env : AIEnv) : Except PyErr (Option String) :=
  if env.outer_raises then .error ⟨"RuntimeError"⟩ else .ok (generate_sync env)

/-- `ExternalAI.get_general_response` (external_ai.py lines 43-80).  The
Python signature always returns a string (every exception is caught at the
boundary), hence the plain `String` result type. -/
def get_general_response (env : AIEnv) (system_prompt user_query : String) : String :=
  if !env.client_ok then disconnected_sentinel
  else
    match attempt_generate env with
    | .error _ => tech_difficulties_sentinel
    | .ok response_text =>
      match response_text with
      | some t => if t.isEmpty then empty_filtered_sentinel else t
      | none => empty_filtered_sentinel

/- ## Persona styling adapter (modules/dialogue/gemini_adapter.py) -/

/-- The full styling prompt assembled by `stylize_with_gemini`
(gemini_adapter.py lines 24-31). -/
def full_styling_prompt (system_prompt base_reply_content : String)
    (original_user_query : Option String) : String :=
  let context_parts :=
    [system_prompt] ++
    (match original_user_query with
     | some q => ["User\x27s original query: \"" ++ q ++ "\""]
     | none => []) ++
    ["The system has generated the following CORE information to be stylized: \""
       ++ base_reply_content ++ "\"",
     "Rephrase or style this core information according to your persona and tone. The final response will be spoken by a physical robot; keep it conversational and slightly concise."]
  String.intercalate "\n\n" context_parts

/-- `stylize_with_gemini` (gemini_adapter.py lines 11-53).  The gateway
call is total (see `get_general_response`), so the adapter's own
`except` branch is unreachable; the only fallback that can fire is the
disconnected-sentinel prefix check of lines 44-46. -/
def stylize_with_gemini (env : AIEnv) (system_prompt base_reply_content : String)
    (original_user_query : Option String) : String :=
  if base_reply_content.isEmpty || (py_strip base_reply_content).isEmpty then
    base_reply_content
  else
    let styled_text :=
      get_general_response env system_prompt
        (full_styling_prompt system_prompt base_reply_content original_user_query)
    if !styled_text.isEmpty && py_startswith styled_text "I am currently disconnected" then
      base_reply_content
    else styled_text

/- ## Dialogue data model (modules/dialogue/dialogue_manager.py) -/

/-- Modelled from the spec: the `PersonaProfile` class of
`modules/personalities/profile.py`, which is not under `src/`; spec §3
describes a Persona as `{name, tone, system_prompt (template resolved at
read time)}`, immutable after load.  The zero-argument `system_prompt()`
method is modelled as a field holding the resolved text. -/
structure PersonaProfile where
  name : String
  tone : String
  system_prompt : String
deriving DecidableEq

/-- Entities extracted by the intent resolver, as a string-keyed mapping of
string values (the shapes the internal handlers read). -/
def Entities := List (String × String)

/-- Python `entities.get(k)`. -/
def entGet (es : Entities) (k : String) : Option String :=
  (es.find? (fun p => p.1 == k)).map (fun p => p.2)

/-- The `{intent, entities}` result of `NLPProcessor.parse_command`
(an external collaborator; spec §2 "Intent Resolver"). -/
structure IntentResult where
  intent : String
  entities : Entities

/-- Modelled from the spec: the intent constants exported by
`modules/nlp_processor.py`, which is not under `src/`.  The values are
pinned by the literal intent strings that `decision_engine.py` compares
resolved intents against (`"tell_time"`, `"tell_date"`,
`"change_personality"`, `"set_reminder"`, `"unknown"`, `"general_query"`)
and by the spec naming the tone intent `change_tone`. -/
def INTENT_TELL_TIME : String := "tell_time"

/-- Modelled from the spec: see `INTENT_TELL_TIME`. -/
def INTENT_TELL_DATE : String := "tell_date"

/-- Modelled from the spec: see `INTENT_TELL_TIME`. -/
def INTENT_SET_REMINDER : String := "set_reminder"

/-- Modelled from the spec: see `INTENT_TELL_TIME`. -/
def INTENT_CHANGE_PERSONALITY : String := "change_personality"

/-- Modelled from the spec: see `INTENT_TELL_TIME`. -/
def INTENT_CHANGE_TONE : String := "change_tone"

/-- The keys of the `intent_handlers` dispatch table built in
`DialogueManager.__init__` (dialogue_manager.py lines 51-57). -/
def internal_intents : List String :=
  [INTENT_TELL_TIME, INTENT_TELL_DATE, INTENT_SET_REMINDER,
   INTENT_CHANGE_PERSONALITY, INTENT_CHANGE_TONE]

/-- The mutable conversation state held by `DialogueManager`: the persona
set keyed by lower-cased name, the active persona and tone, and the
styling switch read from settings. -/
structure DMState where
  personalities : List (String × PersonaProfile)
  current_persona : Option PersonaProfile
  current_tone : Option String
  personality_enabled : Bool
deriving DecidableEq

/-- Python f-string rendering of `current_tone` (an `Option`): `None`
renders as `"None"`. -/
def tone_text (t : Option String) : String :=
  match t with
  | some s => s
  | none => "None"

/-- Dictionary lookup in the persona set (`self.personalities[key]`). -/
def persona_lookup (key : String) (ps : List (String × PersonaProfile)) :
    Option PersonaProfile :=
  (ps.find? (fun p => p.1 == key)).map (fun p => p.2)

/-- Oracles for the external collaborators reached through the modules
facade (`time_utils`, `user_reminder_service`); each call may raise. -/
structure Facade where
  tell_time : Except PyErr String
  tell_date : Except PyErr String
  setup_reminder : String → String → Except PyErr String

/-- `_handle_change_personality` (dialogue_manager.py lines 217-229).
Pure: it cannot raise.  The persona set only holds `PersonaProfile`
instances (always truthy), so the `"Something went wrong"` re-check of
line 226 is unreachable and the found profile is installed directly. -/
def handle_change_personality (st : DMState) (entities : Entities) :
    String × DMState :=
  let new_persona_name_key := py_lower ((entGet entities "persona_name").getD "")
  match persona_lookup new_persona_name_key st.personalities with
  | some p =>
      ("Okay, I\x27ve switched my personality to " ++ p.name ++ ".",
       { st with current_persona := some p, current_tone := some p.tone })
  | none =>
      let available := String.intercalate ", " (st.personalities.map (fun pr => pr.2.name))
      ("Sorry, I don\x27t have a personality named \x27" ++ new_persona_name_key
         ++ "\x27. Available: " ++ available ++ ".", st)

/-- `_handle_change_tone` (dialogue_manager.py lines 231-238). -/
def handle_change_tone (st : DMState) (entities : Entities) :
    String × DMState :=
  let new_tone := py_strip ((entGet entities "tone_name").getD "")
  if new_tone.isEmpty then ("What tone would you like me to use?", st)
  else
    ("Alright, I\x27ll try to adopt a " ++ new_tone ++ " tone.",
     { st with current_tone := some new_tone })

/-- `_handle_set_reminder` (dialogue_manager.py lines 240-250); the
delegated `setup_reminder` call may raise. -/
def handle_set_reminder (facade : Facade) (st : DMState) (entities : Entities) :
    Except PyErr (String × DMState) :=
  let note := (entGet entities "note").getD ""
  let time_str := (entGet entities "time_str").getD ""
  if note.isEmpty || time_str.isEmpty then
    .ok ("To set a reminder, I need the reminder text and a specific time.", st)
  else
    match facade.setup_reminder note time_str with
    | .ok r => .ok (r, st)
    | .error e => .error e

/-- The bound handler for an intent key of the dispatch table
(dialogue_manager.py lines 51-57 and 215-258). -/
def run_intent_handler (facade : Facade) (intent : String) (st : DMState)
    (entities : Entities) : Except PyErr (String × DMState) :=
  if intent = INTENT_TELL_TIME then
    match facade.tell_time with
    | .ok r => .ok (r, st)
    | .error e => .error e
  else if intent = INTENT_TELL_DATE then
    match facade.tell_date with
    | .ok r => .ok (r, st)
    | .error e => .error e
  else if intent = INTENT_SET_REMINDER then handle_set_reminder facade st entities
  else if intent = INTENT_CHANGE_PERSONALITY then .ok (handle_change_personality st entities)
  else if intent = INTENT_CHANGE_TONE then .ok (handle_change_tone st entities)
  else .error ⟨"KeyError"⟩

/-- `format_error_message` (response_formatter.py lines 25-33); the
optional technical detail is only logged, never shown. -/
def format_error_message (user_message : String) : String :=
  "Sorry, I encountered an issue: " ++ user_message

/-- `_handle_intent_with_error_handling` (dialogue_manager.py lines
196-213): runs the bound handler, catching any exception and converting it
to the formatted apology naming the intent.  Total: it always returns a
string (the essence of the `try`/`except`). -/
def handle_intent_with_error_handling (facade : Facade) (intent : String)
    (st : DMState) (entities : Entities) : String × DMState :=
  match run_intent_handler facade intent st entities with
  | .ok r => r
  | .error _ =>
      (format_error_message
        ("I had trouble processing your request concerning \x27" ++ intent ++ "\x27."),
       st)

/- ## Plugin registry and the dialogue turn (dialogue_manager.py) -/

/-- The plugin contract (core/plugin_interface.py): declares support for an
intent and executes a command; execution may raise (process_turn does not
wrap plugin calls in the per-handler error isolation). -/
structure Plugin where
  supports_intent : String → Bool
  execute_command : String → IntentResult → Except PyErr String

/-- An observable call into the plugin registry, recorded so that
non-interference with the registry can be stated. -/
inductive CallEvent where
  | plugin_supports (plugin : String) (intent : String)
  | plugin_execute (plugin : String)
deriving DecidableEq

/-- The plugin scan loop of `process_turn` (dialogue_manager.py lines
173-178): linear scan in registration order, first supporter executes. -/
def scan_plugins (plugins : List (String × Plugin)) (intent : String)
    (raw_text : String) (parsed : IntentResult) :
    Option (Except PyErr String) × List CallEvent :=
  match plugins with
  | [] => (none, [])
  | (plugin_name, plugin_instance) :: rest =>
    if plugin_instance.supports_intent intent then
      (some (plugin_instance.execute_command raw_text parsed),
       [.plugin_supports plugin_name intent, .plugin_execute plugin_name])
    else
      let (r, tr) := scan_plugins rest intent raw_text parsed
      (r, .plugin_supports plugin_name intent :: tr)

/-- Steps 1-2 of `DialogueManager.process_turn` (dialogue_manager.py lines
162-183): intent resolution, internal dispatch with error isolation, and
the plugin fallback; produces the base reply before styling, the updated
state, and the trace of plugin-registry calls. -/
def process_turn_base (nlp : String → IntentResult) (facade : Facade)
    (plugins : List (String × Plugin)) (st : DMState) (raw_text : String) :
    Except PyErr (String × DMState × List CallEvent) :=
  let parsed := nlp raw_text
  let intent := parsed.intent
  let entities := parsed.entities
  if internal_intents.contains intent then
    let r := handle_intent_with_error_handling facade intent st entities
    .ok (r.1, r.2, [])
  else
    match scan_plugins plugins intent raw_text parsed with
    | (some res, tr) =>
      match res with
      | .ok r => .ok (r, st, tr)
      | .error e => .error e
    | (none, tr) =>
      .ok (format_error_message
            ("I understood the intent \x27" ++ intent
               ++ "\x27, but I lack the specific tool to execute it directly."),
           st, tr)

/-- Step 3 of `process_turn` (dialogue_manager.py lines 185-194): if
styling is enabled, the base reply truthy and a persona active, the reply
is post-processed through the gateway with the instruction composed from
the persona's system prompt and the current tone. -/
def apply_styling (env : AIEnv) (st : DMState) (base_reply raw_text : String) : String :=
  match st.current_persona with
  | some p =>
    if st.personality_enabled && !base_reply.isEmpty then
      stylize_with_gemini env
        (p.system_prompt ++ "\n" ++ "Respond in a " ++ tone_text st.current_tone
           ++ " tone. Keep the response suitable for robotic speech.")
        base_reply (some raw_text)
    else base_reply
  | none => base_reply

/-- `DialogueManager.process_turn` (dialogue_manager.py lines 157-194). -/
def process_turn (nlp : String → IntentResult) (env : AIEnv) (facade : Facade)
    (plugins : List (String × Plugin)) (st : DMState) (raw_text : String) :
    Except PyErr (String × DMState × List CallEvent) :=
  match process_turn_base nlp facade plugins st raw_text with
  | .error e => .error e
  | .ok (base_reply, st2, tr) => .ok (apply_styling env st2 base_reply raw_text, st2, tr)

/-- `_load_and_set_initial_persona` (dialogue_manager.py lines 84-103):
given the loaded persona set (keyed by lower-cased name) and the
configured default persona name, selects the initial persona — the
configured one, else the first available — and its tone. -/
def load_and_set_initial_persona (personalities : List (String × PersonaProfile))
    (settings_personality : String) (personality_enabled : Bool) : DMState :=
  let initial_persona_name := py_lower settings_personality
  let cp0 := persona_lookup initial_persona_name personalities
  let cp :=
    match cp0 with
    | some p => some p
    | none => (personalities.head?).map (fun pr => pr.2)
  { personalities := personalities
    current_persona := cp
    current_tone := cp.map (fun p => p.tone)
    personality_enabled := personality_enabled }

/-- `DialogueManager.log_interaction` (dialogue_manager.py lines 105-117):
the lines appended to the interaction log for one turn — a timestamped
`User:` line, a timestamped `GENESIS:` line, and a blank separator line
(both lines share the single timestamp taken at line 109). -/
def log_interaction (ts user_input genesis_response : String)
    (log : List String) : List String :=
  log ++ [ts ++ " | User: " ++ user_input,
          ts ++ " | GENESIS: " ++ genesis_response,
          ""]

/-- `handle_sensor_callback` (dialogue_manager.py lines 124-147), word
branch: the utterance text extracted from a `WordRecognized` value — the
stripped first element of a non-empty list, or a raw string taken as is
(note: the raw-string branch of line 141 does not strip). -/
def extract_user_text (event_value : PyValue) : String :=
  match event_value with
  | .list (v :: _) => py_strip (pyStr v)
  | .str s => s
  | _ => ""

/-- The turn started by `handle_sensor_callback` (dialogue_manager.py
lines 124-147): `some text` when a `WordRecognized` event with usable text
spawns `process_user_speech text` via `asyncio.create_task`, `none` when
no dialogue turn is started.  `has_engine` is the `self.decision_engine`
null check of line 134. -/
def handle_sensor_callback_turn (has_engine : Bool) (event_name : String)
    (event_value : PyValue) : Option String :=
  if event_name = "WordRecognized" && has_engine then
    let user_text := extract_user_text event_value
    if !user_text.isEmpty then some user_text else none
  else none

/- ## Hardware interface (modules/pepper_interface.py) -/

/-- A command issued on the Hardware Link (NAOqi proxies). -/
inductive HwCommand where
  | say (text : String)
  | goToPosture (posture : String)
deriving DecidableEq

/-- The connection-related state of `PepperInterface`: the
`is_connected` flag and whether the TTS / motion proxies were acquired. -/
structure RobotState where
  is_connected : Bool
  has_tts_proxy : Bool
  has_motion_proxy : Bool
deriving DecidableEq

/-- `PepperInterface.speak_async` (pepper_interface.py lines 119-138):
when disconnected, logs and returns without issuing a command; without a
TTS proxy, a mock log only; otherwise issues `say` (with the `\rspd=80\ `
animation prefix when `animation` is set).  `_speak_sync` catches its own
exceptions, so the call always returns normally; the state is returned
unchanged (the method assigns no attribute). -/
def speak_async (r : RobotState) (text : String) (animation : Bool) :
    List HwCommand × RobotState :=
  if !r.is_connected then ([], r)
  else if !r.has_tts_proxy then ([], r)
  else if animation then ([.say ("\\rspd=80\\ " ++ text)], r)
  else ([.say text], r)

/-- `PepperInterface.move_posture_async` (pepper_interface.py lines
140-152): a no-op unless connected with a motion proxy; `_move_sync`
catches its own exceptions (the fixed speed 0.8 is not modelled). -/
def move_posture_async (r : RobotState) (posture : String) :
    List HwCommand × RobotState :=
  if !r.is_connected || !r.has_motion_proxy then ([], r)
  else ([.goToPosture posture], r)

/-- `PepperInterface._is_meaningful_event` (pepper_interface.py lines
232-248): the per-key noise filter.  For `WordRecognized`, only a
non-empty list reaches the trimmed-first-element rule; every other value
shape falls through to the final `return bool(value)`. -/
def is_meaningful_event (event_name : String) (value : PyValue) : Bool :=
  if event_name = "WordRecognized" then
    match value with
    | .list (v :: _) => ((py_strip (pyStr v)).length > 0 : Bool)
    | _ => pyTruthy value
  else if str_contains event_name "Touched" || str_contains event_name "TouchChanged" then
    pyValueBeq value (.int 1) ||
      (match value with
       | .list xs => xs.any (fun v => pyValueBeq v (.int 1))
       | _ => false)
  else if str_contains event_name "TextDone" then
    pyValueBeq value (.int 1)
  else pyTruthy value

/-- The delivery gate of `_poll_sensors` (pepper_interface.py line 207):
a sampled value is handed across the concurrency boundary iff it is truthy
and passes the noise filter (`if value and self._is_meaningful_event`). -/
def poll_delivers (event_name : String) (value : PyValue) : Bool :=
  pyTruthy value && is_meaningful_event event_name value

/- ## Decision/Action Planner (modules/decision_engine.py) -/

/-- An `ActionPlan` (decision_engine.py: the `action_plan` dict): speech
text plus a motion token. -/
structure ActionPlan where
  speech : String
  motion : String
deriving DecidableEq

/-- The whole per-turn state visible to `DecisionEngine`: the dialogue
state, the hardware state, and the interaction log. -/
structure EngineState where
  dm : DMState
  robot : RobotState
  log : List String
deriving DecidableEq

/-- The fixed fallback reply of `process_user_speech`
(decision_engine.py line 129). -/
def fallback_reply : String := "I\x27m not sure how to respond to that."

/-- The generic apology of the output-execution `except` branch
(decision_engine.py line 126). -/
def execution_error_reply : String :=
  "I encountered an error while processing your request."

/-- Steps 1-3 of `DecisionEngine.process_user_speech` (decision_engine.py
lines 40-94): NLP parsing, internal routing (time/date directly;
persona/reminder delegated to `DialogueManager.process_turn`), and
external routing through the gateway.  In the external branch the active
persona is dereferenced (`effective_persona.system_prompt()`, line 80)
before any null check, so a missing persona raises `AttributeError`.
Yields the action plan (`none` when no branch matched), the reply text,
and the updated dialogue state. -/
def plan_user_speech (nlp : String → IntentResult) (env : AIEnv) (facade : Facade)
    (plugins : List (String × Plugin)) (st : EngineState) (user_text : String) :
    Except PyErr (Option ActionPlan × String × DMState) :=
  let parsed := nlp user_text
  let intent := parsed.intent
  if intent = "tell_time" then
    match facade.tell_time with
    | .ok response => .ok (some ⟨response, "HeadYaw:0"⟩, response, st.dm)
    | .error e => .error e
  else if intent = "tell_date" then
    match facade.tell_date with
    | .ok response => .ok (some ⟨response, "HeadYaw:0"⟩, response, st.dm)
    | .error e => .error e
  else if intent = "change_personality" then
    match process_turn nlp env facade plugins st.dm user_text with
    | .ok (response, dm2, _) => .ok (some ⟨response, "BodyLanguage:Joy"⟩, response, dm2)
    | .error e => .error e
  else if intent = "set_reminder" then
    match process_turn nlp env facade plugins st.dm user_text with
    | .ok (response, dm2, _) => .ok (some ⟨response, "HeadNod"⟩, response, dm2)
    | .error e => .error e
  else if intent = "unknown" ∨ intent = "general_query"
      ∨ internal_intents.contains intent = false then
    match st.dm.current_persona with
    | none => .error ⟨"AttributeError"⟩
    | some effective_persona =>
      let system_instruction :=
        effective_persona.system_prompt ++ "\n"
          ++ "You are speaking through a physical robot named Pepper. Keep responses concise and conversational. Respond in a "
          ++ tone_text st.dm.current_tone ++ " tone."
      let llm_response := get_general_response env system_instruction user_text
      .ok (some ⟨llm_response, "BodyLanguage:Think"⟩, llm_response, st.dm)
  else
    .ok (none, "", st.dm)

/-- The fallback tail of `process_user_speech` (decision_engine.py lines
128-131): speak the fixed apology and return it. -/
def execute_fallback (robot : RobotState) (log : List String) (dm2 : DMState) :
    String × EngineState × List HwCommand :=
  let sp := speak_async robot fallback_reply true
  (fallback_reply, ⟨dm2, sp.2, log⟩, sp.1)

/-- Step 4 of `process_user_speech` (decision_engine.py lines 96-131):
output execution.  The `motion_cmd.split(':')[1]` of line 107 can raise
`IndexError` before any coroutine is awaited, in which case the `except`
of line 124 returns the generic apology and neither output channel runs.
The `self.dm.log_interaction(user_text, response)` of line 120 is **not**
awaited — the coroutine is created and discarded, so its file write never
executes and the log is returned unchanged on every path. -/
def execute_plan (robot : RobotState) (log : List String) (dm2 : DMState)
    (plan : Option ActionPlan) (response : String) :
    String × EngineState × List HwCommand :=
  match plan with
  | some action_plan =>
    if !response.isEmpty then
      if str_contains action_plan.motion "move_posture" then
        match (py_split action_plan.motion ':').get? 1 with
        | some posture =>
          let sp := speak_async robot action_plan.speech true
          let mv := move_posture_async sp.2 posture
          (response, ⟨dm2, mv.2, log⟩, sp.1 ++ mv.1)
        | none => (execution_error_reply, ⟨dm2, robot, log⟩, [])
      else if !action_plan.motion.isEmpty && action_plan.motion ≠ "HeadYaw:0" then
        let sp := speak_async robot action_plan.speech true
        let mv := move_posture_async sp.2 "Stand"
        (response, ⟨dm2, mv.2, log⟩, sp.1 ++ mv.1)
      else
        let sp := speak_async robot action_plan.speech true
        (response, ⟨dm2, sp.2, log⟩, sp.1)
    else execute_fallback robot log dm2
  | none => execute_fallback robot log dm2

/-- `DecisionEngine.process_user_speech` (decision_engine.py lines
30-131): planning followed by execution; a planning exception (NLP-facade
error, plugin error, or the null-persona dereference) propagates to the
caller, while execution errors are caught inside `execute_plan`. -/
def process_user_speech (nlp : String → IntentResult) (env : AIEnv) (facade : Facade)
    (plugins : List (String × Plugin)) (st : EngineState) (user_text : String) :
    Except PyErr (String × EngineState × List HwCommand) :=
  match plan_user_speech nlp env facade plugins st user_text with
  | .error e => .error e
  | .ok (plan, response, dm2) => .ok (execute_plan st.robot st.log dm2 plan response)

/-- The reply a completed turn returns to its caller (first component). -/
def turn_reply (r : Except PyErr (String × EngineState × List HwCommand)) :
    Option String :=
  r.toOption.map (fun x => x.1)

/-- The interaction log after a completed turn. -/
def turn_log (r : Except PyErr (String × EngineState × List HwCommand)) :
    Option (List String) :=
  r.toOption.map (fun x => x.2.1.log)

/-- The reply `process_turn` hands back (first component). -/
def pt_reply (r : Except PyErr (String × DMState × List CallEvent)) :
    Option String :=
  r.toOption.map (fun x => x.1)

/-- The hardware commands issued during a completed turn. -/
def turn_commands (r : Except PyErr (String × EngineState × List HwCommand)) :
    Option (List HwCommand) :=
  r.toOption.map (fun x => x.2.2)

/-- The word-recognized noise-filter rule exactly as the spec states it
(spec §4.2): meaningful iff the value is a non-empty pair/list whose first
element, trimmed, is non-empty text.  Stated separately so it can be
compared with the implemented filter `is_meaningful_event`. -/
def spec_meaningful_word (value : PyValue) : Bool :=
  match value with
  | .list (v :: _) => !(py_strip (pyStr v)).isEmpty
  | _ => false

/-- Whether a modelled Python value is a list. -/
def is_pylist : PyValue → Bool
  | .list _ => true
  | _ => false

/-- The guard of the external-routing branch of `process_user_speech`
(decision_engine.py line 74), together with the earlier branch tests that
must fail for control to reach it. -/
def external_routed (i : String) : Bool :=
  !(i == "tell_time") && !(i == "tell_date") && !(i == "change_personality")
    && !(i == "set_reminder")
    && (i == "unknown" || i == "general_query" || !internal_intents.contains i)

/- ## Concrete fixtures for witnesses and counterexamples -/

/-- A loaded persona profile used in concrete runs. -/
def persona_genesis : PersonaProfile := ⟨"Genesis", "warm", "You are GENESIS."⟩

/-- A second loaded persona profile used in concrete runs. -/
def persona_ada : PersonaProfile := ⟨"Ada", "calm", "You are Ada."⟩

/-- A dialogue state with two personas and styling enabled. -/
def dm_styled : DMState :=
  ⟨[("genesis", persona_genesis), ("ada", persona_ada)], some persona_genesis,
   some "warm", true⟩

/-- A dialogue state with two personas and styling disabled. -/
def dm_plain : DMState :=
  ⟨[("genesis", persona_genesis), ("ada", persona_ada)], some persona_genesis,
   some "warm", false⟩

/-- A connected robot with both proxies acquired. -/
def robot_connected : RobotState := ⟨true, true, true⟩

/-- Engine state over `dm_plain` with an empty interaction log. -/
def st_plain : EngineState := ⟨dm_plain, robot_connected, []⟩

/-- A healthy gateway environment whose model call returns no text. -/
def env_notext : AIEnv := ⟨true, false, .noText⟩

/-- A gateway environment whose model call raises inside the worker. -/
def env_raises : AIEnv := ⟨true, false, .raises⟩

/-- Facade oracles that answer every call successfully. -/
def facade_ok : Facade :=
  ⟨.ok "It is 3 PM.", .ok "It is Sunday.", fun _ _ => .ok "Reminder set."⟩

/-- Facade oracles whose time utility raises. -/
def facade_time_err : Facade :=
  ⟨.error ⟨"RuntimeError"⟩, .ok "It is Sunday.", fun _ _ => .ok "Reminder set."⟩

/-- An intent resolution mapping every utterance to `change_tone`. -/
def nlp_tone : String → IntentResult :=
  fun _ => ⟨"change_tone", [("tone_name", "cheerful")]⟩

/-- An intent resolution mapping every utterance to `tell_time`. -/
def nlp_time : String → IntentResult :=
  fun _ => ⟨"tell_time", []⟩

/-- An intent resolution mapping every utterance to `change_personality`
with the persona entity `Ada`. -/
def nlp_persona : String → IntentResult :=
  fun _ => ⟨"change_personality", [("persona_name", "Ada")]⟩

/-- An intent resolution mapping every utterance to `unknown`. -/
def nlp_unknown : String → IntentResult :=
  fun _ => ⟨"unknown", []⟩

/-- A fixed ISO8601-UTC timestamp used in concrete log computations. -/
def ts_fixed : String := "2026-01-01T00:00:00+00:00"

/-- The dialogue state after switching `dm_plain` to the persona `Ada`. -/
def dm_ada : DMState :=
  ⟨[("genesis", persona_genesis), ("ada", persona_ada)], some persona_ada,
   some "calm", false⟩

/- ## Theorems -/

/-- A string built from a non-empty character list is not the empty
string. -/
theorem string_mk_cons_ne_empty (c : Char) (cs : List Char) :
    String.mk (c :: cs) ≠ "" := by
  intro h
  have h2 : (String.mk (c :: cs)).data = ("" : String).data := by rw [h]
  simp at h2

/-- `isEmpty` is false on a string built from a non-empty character
list. -/
theorem string_mk_cons_isEmpty (c : Char) (cs : List Char) :
    (String.mk (c :: cs)).isEmpty = false := by
  rw [Bool.eq_false_iff]
  intro ht
  exact string_mk_cons_ne_empty c cs ((String.isEmpty_iff _).mp ht)

/-- The boolean `length > 0` test coincides with `!isEmpty`. -/
theorem length_pos_bool_eq_not_isEmpty (s : String) :
    (decide (0 < s.length)) = !s.isEmpty := by
  cases s with
  | mk l =>
    cases l with
    | nil => rfl
    | cons c cs =>
      rw [string_mk_cons_isEmpty]
      simp [String.length]

/-- Claim C3 (counterexample): a `WordRecognized` event whose value is the
raw string `" "` — whitespace-only text — does start a dialogue turn:
`handle_sensor_callback` passes the raw string through unstripped, so
`process_user_speech` is invoked with `" "`. -/
theorem c3_counterexample :
    handle_sensor_callback_turn true "WordRecognized" (PyValue.str " ") = some " "
    ∧ py_strip " " = "" := by
  constructor
  · decide
  · decide

/-- Claim C3 (amended): for a `WordRecognized` event, a turn is started
with the stripped first element when the value is a non-empty list whose
first element does not trim to empty; for a raw-string value the text is
taken unstripped, so only the empty raw string is filtered (a
whitespace-only raw string starts a turn); all other value shapes start no
turn. -/
theorem c3_turn_start_characterization (x : PyValue) (rest : List PyValue) (s : String) :
    (handle_sensor_callback_turn true "WordRecognized" (PyValue.list (x :: rest))
       = (if (py_strip (pyStr x)).isEmpty then none else some (py_strip (pyStr x))))
    ∧ (handle_sensor_callback_turn true "WordRecognized" (PyValue.str s)
       = (if s.isEmpty then none else some s))
    ∧ handle_sensor_callback_turn true "WordRecognized" (PyValue.list []) = none
    ∧ handle_sensor_callback_turn true "WordRecognized" PyValue.pyNone = none := by
  refine ⟨?_, ?_, rfl, rfl⟩
  · simp only [handle_sensor_callback_turn, extract_user_text]
    by_cases h : (py_strip (pyStr x)).isEmpty <;> simp [h]
  · simp only [handle_sensor_callback_turn, extract_user_text]
    by_cases h : s.isEmpty <;> simp [h]

/-- Claim C4 (counterexample): the bare non-empty string `"hello"` is not
a list, yet the noise filter classifies it as meaningful (it falls through
to the truthiness fallback of `_is_meaningful_event`) and the polling loop
delivers it. -/
theorem c4_counterexample :
    is_meaningful_event "WordRecognized" (PyValue.str "hello") = true
    ∧ spec_meaningful_word (PyValue.str "hello") = false
    ∧ poll_delivers "WordRecognized" (PyValue.str "hello") = true := by
  refine ⟨by decide, by decide, by decide⟩

/-- Claim C4 (amended): for the word-recognized key the filter classifies
a list value as meaningful iff its first element trims to non-empty text
(the spec's rule), but any non-list value falls through to the truthiness
fallback — so a bare non-empty string is meaningful too; delivery by the
polling loop coincides with the filter verdict for this key. -/
theorem c4_filter_characterization (v : PyValue) :
    is_meaningful_event "WordRecognized" v
      = (spec_meaningful_word v || (!is_pylist v && pyTruthy v))
    ∧ poll_delivers "WordRecognized" v = is_meaningful_event "WordRecognized" v := by
  constructor
  · cases v with
    | str s => simp [is_meaningful_event, spec_meaningful_word, is_pylist, pyTruthy]
    | int n => simp [is_meaningful_event, spec_meaningful_word, is_pylist, pyTruthy]
    | list xs =>
      cases xs with
      | nil => simp [is_meaningful_event, spec_meaningful_word, is_pylist, pyTruthy]
      | cons x rest =>
        simp only [is_meaningful_event, spec_meaningful_word, is_pylist]
        simp only [reduceIte]
        simp [length_pos_bool_eq_not_isEmpty]
    | pyNone => simp [is_meaningful_event, spec_meaningful_word, is_pylist, pyTruthy]
  · cases v with
    | str s => simp [poll_delivers, is_meaningful_event, pyTruthy]
    | int n => simp [poll_delivers, is_meaningful_event, pyTruthy]
    | list xs => cases xs <;> simp [poll_delivers, is_meaningful_event, pyTruthy]
    | pyNone => simp [poll_delivers, is_meaningful_event, pyTruthy]

/-- Claim C6 (counterexample): when the model call raises inside the
worker function, `get_general_response` returns the empty-or-filtered
sentinel — not the technical-difficulties sentinel the claim assigns to
transport/runtime errors. -/
theorem c6_counterexample :
    get_general_response env_raises "instr" "query" = empty_filtered_sentinel
    ∧ empty_filtered_sentinel ≠ tech_difficulties_sentinel := by
  refine ⟨rfl, by decide⟩

/-- Claim C6 (amended): without an initialized client the gateway returns
the disconnected sentinel; an empty/filtered response — and likewise an
error raised by the model call, which the worker catches and turns into
`None` — yields the empty-or-filtered sentinel; the technical-difficulties
sentinel covers only failures outside the worker; a successful call
returns the trimmed text (or the empty-or-filtered sentinel when the
trimmed text is empty); every case returns a string, none raises. -/
theorem c6_gateway_cases (sp uq s : String) (o : Bool) (g : GenOutcome) :
    get_general_response ⟨false, o, g⟩ sp uq = disconnected_sentinel
    ∧ get_general_response ⟨true, false, .noText⟩ sp uq = empty_filtered_sentinel
    ∧ get_general_response ⟨true, false, .raises⟩ sp uq = empty_filtered_sentinel
    ∧ get_general_response ⟨true, true, g⟩ sp uq = tech_difficulties_sentinel
    ∧ get_general_response ⟨true, false, .text s⟩ sp uq
        = (if (py_strip s).isEmpty then empty_filtered_sentinel else py_strip s) := by
  exact ⟨rfl, rfl, rfl, rfl, rfl⟩

/-- Claim C8: while the interface is disconnected, `speak_async` and
`move_posture_async` issue no Hardware Link command, return normally, and
leave the whole interface state (including the connection flag)
unchanged. -/
theorem c8_disconnected_noop (tts mot : Bool) (text : String) (animation : Bool)
    (posture : String) :
    speak_async ⟨false, tts, mot⟩ text animation = ([], ⟨false, tts, mot⟩)
    ∧ move_posture_async ⟨false, tts, mot⟩ posture = ([], ⟨false, tts, mot⟩) :=
  ⟨rfl, rfl⟩

/-- With an uninitialized gateway client the stylizer always hands back
the base reply: the gateway returns the disconnected sentinel and the
prefix check of gemini_adapter.py line 44 fires. -/
theorem stylize_with_gemini_disconnected (o : Bool) (g : GenOutcome)
    (sp base : String) (q : Option String) :
    stylize_with_gemini ⟨false, o, g⟩ sp base q = base := by
  simp only [stylize_with_gemini]
  split
  · rfl
  · have hg : get_general_response ⟨false, o, g⟩ sp (full_styling_prompt sp base q)
        = disconnected_sentinel := rfl
    rw [hg, if_pos (by decide)]

/-- With an uninitialized gateway client the styling step of
`process_turn` is the identity on the base reply. -/
theorem apply_styling_disconnected (o : Bool) (g : GenOutcome) (st : DMState)
    (base raw : String) :
    apply_styling ⟨false, o, g⟩ st base raw = base := by
  unfold apply_styling
  cases hp : st.current_persona with
  | none => rfl
  | some p =>
    dsimp only
    by_cases hc : (st.personality_enabled && !base.isEmpty) = true
    · rw [if_pos hc]
      exact stylize_with_gemini_disconnected o g _ base (some raw)
    · rw [if_neg hc]

/-- Claim C5 (counterexample): styling enabled, persona active, and the
gateway's model call raising inside the worker — the styling call returns
the empty-or-filtered sentinel, which `process_turn` forwards as the final
reply instead of falling back to the un-styled base reply
("Alright, I\x27ll try to adopt a cheerful tone."). -/
theorem c5_counterexample :
    pt_reply (process_turn nlp_tone env_raises facade_ok [] dm_styled "use a cheerful tone")
      = some empty_filtered_sentinel
    ∧ empty_filtered_sentinel ≠ "Alright, I\x27ll try to adopt a cheerful tone." := by
  refine ⟨by decide, by decide⟩

/-- Claim C5 (amended): when the gateway call fails because the client is
not initialized (the disconnected sentinel) — or raises, which the gateway
itself prevents — the un-styled base reply is returned verbatim, with
state and plugin trace unchanged; the empty-or-filtered and
transport-error sentinels, however, are forwarded as the final reply. -/
theorem c5_disconnected_uses_base_reply (nlp : String → IntentResult)
    (facade : Facade) (plugins : List (String × Plugin)) (st : DMState)
    (u : String) (o : Bool) (g : GenOutcome) :
    process_turn nlp ⟨false, o, g⟩ facade plugins st u
      = process_turn_base nlp facade plugins st u := by
  unfold process_turn
  cases hb : process_turn_base nlp facade plugins st u with
  | error e => rfl
  | ok x =>
    obtain ⟨base_reply, st2, tr⟩ := x
    simp [apply_styling_disconnected]

/-- Claim C7: for an intent of the internal dispatch table whose bound
handler raises, the error-isolation wrapper converts the exception into
the formatted apology naming the intent (leaving the state as it was), and
`process_turn` still completes normally — the exception never propagates
to its caller. -/
theorem c7_intent_error_isolation (nlp : String → IntentResult) (env : AIEnv)
    (facade : Facade) (plugins : List (String × Plugin)) (st : DMState)
    (u : String) (e : PyErr)
    (h1 : internal_intents.contains (nlp u).intent = true)
    (h2 : run_intent_handler facade (nlp u).intent st (nlp u).entities = .error e) :
    handle_intent_with_error_handling facade (nlp u).intent st (nlp u).entities
      = (format_error_message
          ("I had trouble processing your request concerning \x27"
            ++ (nlp u).intent ++ "\x27."), st)
    ∧ ∃ res, process_turn nlp env facade plugins st u = .ok res := by
  constructor
  · unfold handle_intent_with_error_handling
    rw [h2]
  · have hb : process_turn_base nlp facade plugins st u
        = .ok ((handle_intent_with_error_handling facade (nlp u).intent st
                  (nlp u).entities).1,
               (handle_intent_with_error_handling facade (nlp u).intent st
                  (nlp u).entities).2, []) := by
      have hmem : (nlp u).intent ∈ internal_intents := by simpa using h1
      simp [process_turn_base, hmem]
    refine ⟨(apply_styling env
        (handle_intent_with_error_handling facade (nlp u).intent st (nlp u).entities).2
        (handle_intent_with_error_handling facade (nlp u).intent st (nlp u).entities).1 u,
      (handle_intent_with_error_handling facade (nlp u).intent st (nlp u).entities).2,
      []), ?_⟩
    unfold process_turn
    rw [hb]

/-- Claim C7 (witness): a concrete internal intent (`tell_time`) whose
facade oracle raises — the wrapper yields the apology naming `tell_time`
and `process_turn` completes. -/
theorem c7_intent_error_isolation_witness :
    handle_intent_with_error_handling facade_time_err "tell_time" dm_plain []
      = (format_error_message
          ("I had trouble processing your request concerning \x27tell_time\x27."),
         dm_plain)
    ∧ ∃ res, process_turn nlp_time env_notext facade_time_err [] dm_plain
        "what time is it" = .ok res :=
  c7_intent_error_isolation nlp_time env_notext facade_time_err [] dm_plain
    "what time is it" ⟨"RuntimeError"⟩ (by decide) rfl

/-- Claim C9: for an intent of the internal dispatch table the outcome of
`process_turn` is the same under any two plugin registries, and the trace
of plugin-registry calls is empty — no plugin's `supports_intent` or
`execute_command` is invoked. -/
theorem c9_registry_independence (nlp : String → IntentResult) (env : AIEnv)
    (facade : Facade) (st : DMState) (u : String)
    (plugins plugins2 : List (String × Plugin))
    (h : internal_intents.contains (nlp u).intent = true) :
    process_turn nlp env facade plugins st u
      = process_turn nlp env facade plugins2 st u
    ∧ ∀ res, process_turn nlp env facade plugins st u = .ok res
        → res.2.2 = ([] : List CallEvent) := by
  have hb : ∀ ps : List (String × Plugin),
      process_turn_base nlp facade ps st u
        = .ok ((handle_intent_with_error_handling facade (nlp u).intent st
                  (nlp u).entities).1,
               (handle_intent_with_error_handling facade (nlp u).intent st
                  (nlp u).entities).2, []) := by
    intro ps
    have hmem : (nlp u).intent ∈ internal_intents := by simpa using h
    simp [process_turn_base, hmem]
  constructor
  · unfold process_turn
    rw [hb plugins, hb plugins2]
  · intro res hres
    unfold process_turn at hres
    rw [hb plugins] at hres
    simp at hres
    rw [← hres]

/-- Claim C9 (witness): concrete instantiation at the internal intent
`change_tone`, comparing the empty registry with a registry containing a
plugin that claims support for every intent. -/
theorem c9_registry_independence_witness :
    process_turn nlp_tone env_notext facade_ok [] dm_plain "use a cheerful tone"
      = process_turn nlp_tone env_notext facade_ok
          [("greedy", ⟨fun _ => true, fun _ _ => .ok "plugin reply"⟩)]
          dm_plain "use a cheerful tone"
    ∧ ∀ res, process_turn nlp_tone env_notext facade_ok [] dm_plain
          "use a cheerful tone" = .ok res → res.2.2 = ([] : List CallEvent) :=
  c9_registry_independence nlp_tone env_notext facade_ok dm_plain
    "use a cheerful tone" [] [("greedy", ⟨fun _ => true, fun _ _ => .ok "plugin reply"⟩)]
    (by decide)

/-- In the branches of `execute_plan` where the plan is present, the reply
is non-empty and the motion token does not mention `move_posture`, the
returned reply is the planned response itself. -/
theorem execute_plan_reply (robot : RobotState) (log : List String) (dm2 : DMState)
    (ap : ActionPlan) (r : String) (hr : r.isEmpty = false)
    (hm : str_contains ap.motion "move_posture" = false) :
    (execute_plan robot log dm2 (some ap) r).1 = r := by
  unfold execute_plan
  simp only [hr, hm, Bool.not_false, if_true, Bool.false_eq_true, if_false]
  split
  · rfl
  · rfl

/-- Claim C1 (counterexample): a `change_tone` utterance.  The dialogue
manager's own `process_turn` would answer it ("Alright, I\x27ll try to
adopt a cheerful tone."), but `process_user_speech` has no branch for
`change_tone` — the intent is in the internal dispatch table, so the
external-routing guard is false as well — and the turn falls through to
the generic fallback reply. -/
theorem c1_counterexample :
    turn_reply (process_user_speech nlp_tone env_notext facade_ok [] st_plain
        "use a cheerful tone") = some fallback_reply
    ∧ pt_reply (process_turn nlp_tone env_notext facade_ok [] dm_plain
        "use a cheerful tone") = some "Alright, I\x27ll try to adopt a cheerful tone."
    ∧ fallback_reply ≠ "Alright, I\x27ll try to adopt a cheerful tone." := by
  refine ⟨by decide, by decide, by decide⟩

/-- Claim C1 (amended): for utterances whose resolved intent is
`change_personality` or `set_reminder` — but not `change_tone`, which
falls to the generic fallback — `process_user_speech` delegates the full
turn to `process_turn` and wraps the returned text as an `ActionPlan`
carrying an acknowledgment motion token (`BodyLanguage:Joy` resp.
`HeadNod`), returning the delegated reply. -/
theorem c1_delegation (nlp : String → IntentResult) (env : AIEnv) (facade : Facade)
    (plugins : List (String × Plugin)) (st : EngineState) (u r : String)
    (dm2 : DMState) (tr : List CallEvent)
    (h : (nlp u).intent = "change_personality" ∨ (nlp u).intent = "set_reminder")
    (hpt : process_turn nlp env facade plugins st.dm u = .ok (r, dm2, tr))
    (hr : r ≠ "") :
    ∃ m, (m = "BodyLanguage:Joy" ∨ m = "HeadNod")
      ∧ plan_user_speech nlp env facade plugins st u = .ok (some ⟨r, m⟩, r, dm2)
      ∧ turn_reply (process_user_speech nlp env facade plugins st u) = some r := by
  have hre : r.isEmpty = false := by
    rw [Bool.eq_false_iff]
    intro hb
    exact hr ((String.isEmpty_iff r).mp hb)
  cases h with
  | inl h =>
    refine ⟨"BodyLanguage:Joy", Or.inl rfl, ?_, ?_⟩
    · simp [plan_user_speech, h, hpt]
    · have hplan : plan_user_speech nlp env facade plugins st u
          = .ok (some ⟨r, "BodyLanguage:Joy"⟩, r, dm2) := by
        simp [plan_user_speech, h, hpt]
      unfold process_user_speech
      rw [hplan]
      show some (execute_plan st.robot st.log dm2
        (some ⟨r, "BodyLanguage:Joy"⟩) r).1 = some r
      rw [execute_plan_reply st.robot st.log dm2 ⟨r, "BodyLanguage:Joy"⟩ r hre
        (show str_contains "BodyLanguage:Joy" "move_posture" = false by decide)]
  | inr h =>
    refine ⟨"HeadNod", Or.inr rfl, ?_, ?_⟩
    · simp [plan_user_speech, h, hpt]
    · have hplan : plan_user_speech nlp env facade plugins st u
          = .ok (some ⟨r, "HeadNod"⟩, r, dm2) := by
        simp [plan_user_speech, h, hpt]
      unfold process_user_speech
      rw [hplan]
      show some (execute_plan st.robot st.log dm2 (some ⟨r, "HeadNod"⟩) r).1 = some r
      rw [execute_plan_reply st.robot st.log dm2 ⟨r, "HeadNod"⟩ r hre
        (show str_contains "HeadNod" "move_posture" = false by decide)]

/-- Claim C1 (witness): a concrete `change_personality` utterance
switching to `Ada`: the delegated reply comes back wrapped with the
`BodyLanguage:Joy` acknowledgment motion. -/
theorem c1_delegation_witness :
    ∃ m, (m = "BodyLanguage:Joy" ∨ m = "HeadNod")
      ∧ plan_user_speech nlp_persona env_notext facade_ok [] st_plain "switch to ada"
          = .ok (some ⟨"Okay, I\x27ve switched my personality to Ada.", m⟩,
                 "Okay, I\x27ve switched my personality to Ada.", dm_ada)
      ∧ turn_reply (process_user_speech nlp_persona env_notext facade_ok [] st_plain
          "switch to ada") = some "Okay, I\x27ve switched my personality to Ada." :=
  c1_delegation nlp_persona env_notext facade_ok [] st_plain "switch to ada"
    "Okay, I\x27ve switched my personality to Ada." dm_ada [] (Or.inl rfl) rfl
    (by decide)

/-- Claim C2: a complete successful `tell_time` turn — the plan executed,
the speech channel received the reply — yet the interaction log is
unchanged (`[]`): decision_engine.py line 120 calls `log_interaction`
without `await`, so the coroutine is discarded and the two timestamped
lines plus blank separator that `log_interaction` would append (shown in
the third conjunct) are never written. -/
theorem c2_log_never_written :
    turn_reply (process_user_speech nlp_time env_notext facade_ok [] st_plain
        "what time is it") = some "It is 3 PM."
    ∧ turn_commands (process_user_speech nlp_time env_notext facade_ok [] st_plain
        "what time is it") = some [HwCommand.say "\\rspd=80\\ It is 3 PM."]
    ∧ turn_log (process_user_speech nlp_time env_notext facade_ok [] st_plain
        "what time is it") = some []
    ∧ log_interaction ts_fixed "what time is it" "It is 3 PM." []
        = ["2026-01-01T00:00:00+00:00 | User: what time is it",
           "2026-01-01T00:00:00+00:00 | GENESIS: It is 3 PM.", ""]
    ∧ ([] : List String) ≠ log_interaction ts_fixed "what time is it" "It is 3 PM." [] := by
  refine ⟨by decide, by decide, by decide, by decide, by decide⟩

/-- Every internal intent handler keeps the active persona non-null: the
only handler that writes `current_persona` installs a profile found in the
persona set. -/
theorem run_intent_handler_keeps_persona (facade : Facade) (intent : String)
    (st : DMState) (entities : Entities) (r : String) (st2 : DMState)
    (hok : run_intent_handler facade intent st entities = .ok (r, st2))
    (hs : st.current_persona.isSome = true) :
    st2.current_persona.isSome = true := by
  unfold run_intent_handler at hok
  split_ifs at hok
  · cases htt : facade.tell_time <;> rw [htt] at hok <;> simp_all
  · cases htd : facade.tell_date <;> rw [htd] at hok <;> simp_all
  · unfold handle_set_reminder at hok
    dsimp only at hok
    split_ifs at hok
    · simp_all
    · cases hsr : facade.setup_reminder ((entGet entities "note").getD "")
          ((entGet entities "time_str").getD "") <;> rw [hsr] at hok <;> simp_all
  · unfold handle_change_personality at hok
    dsimp only at hok
    cases hl : persona_lookup (py_lower ((entGet entities "persona_name").getD ""))
        st.personalities with
    | some p =>
      rw [hl] at hok
      simp at hok
      rw [← hok.2]
      rfl
    | none =>
      rw [hl] at hok
      simp at hok
      rw [← hok.2]
      exact hs
  · unfold handle_change_tone at hok
    dsimp only at hok
    split_ifs at hok
    · simp at hok
      rw [← hok.2]
      exact hs
    · simp at hok
      rw [← hok.2]
      simpa using hs

/-- The error-isolation wrapper keeps the active persona non-null. -/
theorem wrapper_keeps_persona (facade : Facade) (intent : String) (st : DMState)
    (entities : Entities) (hs : st.current_persona.isSome = true) :
    ((handle_intent_with_error_handling facade intent st entities).2).current_persona.isSome
      = true := by
  unfold handle_intent_with_error_handling
  cases hk : run_intent_handler facade intent st entities with
  | error e => simpa using hs
  | ok p =>
    obtain ⟨r, st2⟩ := p
    simpa using run_intent_handler_keeps_persona facade intent st entities r st2 hk hs

/-- `process_turn` keeps the active persona non-null. -/
theorem process_turn_keeps_persona (nlp : String → IntentResult) (env : AIEnv)
    (facade : Facade) (plugins : List (String × Plugin)) (st : DMState)
    (u : String) (res : String × DMState × List CallEvent)
    (hok : process_turn nlp env facade plugins st u = .ok res)
    (hs : st.current_persona.isSome = true) :
    (res.2.1.current_persona).isSome = true := by
  unfold process_turn at hok
  cases hb : process_turn_base nlp facade plugins st u with
  | error e => rw [hb] at hok; exact absurd hok (by simp)
  | ok x =>
    obtain ⟨b, st2, tr⟩ := x
    rw [hb] at hok
    have hst2 : st2.current_persona.isSome = true := by
      unfold process_turn_base at hb
      by_cases hmem : internal_intents.contains (nlp u).intent = true
      · rw [if_pos hmem] at hb
        have := wrapper_keeps_persona facade (nlp u).intent st (nlp u).entities hs
        simp only [] at hb
        cases hb
        exact this
      · rw [if_neg hmem] at hb
        cases hscan : scan_plugins plugins (nlp u).intent u (nlp u) with
        | mk o tr2 =>
          rw [hscan] at hb
          cases o with
          | none => simp at hb; rw [← hb.2.1]; exact hs
          | some resx =>
            cases resx with
            | ok rr => simp at hb; rw [← hb.2.1]; exact hs
            | error e => simp at hb
    simp at hok
    rw [← hok]
    exact hst2

/-- Claim C10: (a) when the resolved intent falls to the external-routing
branch of `process_user_speech` while no persona is active, the
composition of the system instruction dereferences the null persona and
the call raises `AttributeError` instead of returning a reply;
(b) `_load_and_set_initial_persona` installs a persona whenever at least
one was loaded (the configured one, else the first available); and
(c) `process_turn` preserves a non-null persona, so once loading succeeds
the error branch is unreachable. -/
theorem c10_null_persona (nlp : String → IntentResult) (env : AIEnv)
    (facade : Facade) (plugins : List (String × Plugin)) (u : String)
    (robot : RobotState) (log : List String)
    (ps : List (String × PersonaProfile)) (tone : Option String) (en : Bool)
    (ps2 : List (String × PersonaProfile)) (name : String) (en2 : Bool) :
    (external_routed (nlp u).intent = true →
      process_user_speech nlp env facade plugins ⟨⟨ps, none, tone, en⟩, robot, log⟩ u
        = .error ⟨"AttributeError"⟩)
    ∧ (ps2 ≠ [] →
        ((load_and_set_initial_persona ps2 name en2).current_persona).isSome = true)
    ∧ (∀ st res, st.current_persona.isSome = true →
        process_turn nlp env facade plugins st u = .ok res →
        (res.2.1.current_persona).isSome = true) := by
  refine ⟨?_, ?_, ?_⟩
  · intro h
    have h1p : ¬((nlp u).intent = "tell_time") := by
      intro he; rw [he] at h; exact absurd h (by decide)
    have h2p : ¬((nlp u).intent = "tell_date") := by
      intro he; rw [he] at h; exact absurd h (by decide)
    have h3p : ¬((nlp u).intent = "change_personality") := by
      intro he; rw [he] at h; exact absurd h (by decide)
    have h4p : ¬((nlp u).intent = "set_reminder") := by
      intro he; rw [he] at h; exact absurd h (by decide)
    have h5p : (nlp u).intent = "unknown" ∨ (nlp u).intent = "general_query"
        ∨ internal_intents.contains (nlp u).intent = false := by
      by_cases hu : (nlp u).intent = "unknown"
      · exact Or.inl hu
      by_cases hg : (nlp u).intent = "general_query"
      · exact Or.inr (Or.inl hg)
      by_cases hcont : internal_intents.contains (nlp u).intent = true
      · exfalso
        simp [external_routed, hu, hg] at h
        exact h.2 (by simpa using hcont)
      · exact Or.inr (Or.inr (Bool.eq_false_iff.mpr hcont))
    simp only [process_user_speech, plan_user_speech]
    rw [if_neg h1p, if_neg h2p, if_neg h3p, if_neg h4p, if_pos h5p]
  · intro h
    unfold load_and_set_initial_persona
    dsimp only
    cases hl : persona_lookup (py_lower name) ps2 with
    | some p => simp
    | none =>
      cases ps2 with
      | nil => exact absurd rfl h
      | cons hd tl => simp
  · intro st res hs hok
    exact process_turn_keeps_persona nlp env facade plugins st u res hok hs

set_option maxRecDepth 4000 in
/-- Claim C10 (witness): a concrete `unknown` utterance against a state
with no active persona raises `AttributeError`; loading a one-element
persona set installs a persona; and a concrete successful `process_turn`
run preserves the active persona. -/
theorem c10_null_persona_witness :
    process_user_speech nlp_unknown env_notext facade_ok []
        ⟨⟨[], none, none, false⟩, robot_connected, []⟩ "ping"
      = .error ⟨"AttributeError"⟩
    ∧ ((load_and_set_initial_persona [("genesis", persona_genesis)] "genesis"
        true).current_persona).isSome = true
    ∧ (((empty_filtered_sentinel, dm_styled,
        ([] : List CallEvent)).2.1.current_persona)).isSome = true := by
  have H := c10_null_persona nlp_unknown env_notext facade_ok [] "ping"
    robot_connected [] [] none false [("genesis", persona_genesis)] "genesis" true
  exact ⟨H.1 (by decide), H.2.1 (by decide),
    H.2.2 dm_styled (empty_filtered_sentinel, dm_styled, []) (by decide) rfl⟩

end Genesis
